import Mathlib

/-!
Shallow embedding of the MMFS (5-Minute Market Force Scalping) strategy core:
gap classification, market-breadth classification, market state and trade
gating, position lifecycle (price tracking, breakeven promotion, monitoring
tick), position sizing, trade results with modelled costs, the metrics
accumulator, and configuration validation.  Python floats are modelled as
rationals (ℚ); Python `float('inf')` is modelled as `none` of `Option ℚ`;
Python `datetime` quantities enter only through explicitly passed durations
and timestamps.
-/

namespace MMFS

/-- `config.settings.SignalType`. -/
inductive SignalType where
  | LONG
  | SHORT
deriving DecidableEq, Repr

/-- `config.mmfs_config.GapType`. -/
inductive GapType where
  | SMALL
  | MODERATE
  | STRONG
  | NO_GAP
deriving DecidableEq, Repr

/-- `config.mmfs_config.MarketBreadth`. -/
inductive MarketBreadth where
  | BULLISH
  | BEARISH
  | NEUTRAL
deriving DecidableEq, Repr

/-- `config.mmfs_config.MMFSSetupType`. -/
inductive MMFSSetupType where
  | GAP_UP_BREAKOUT
  | GAP_UP_FAILURE
  | GAP_DOWN_RECOVERY
  | RANGE_BREAKDOWN
deriving DecidableEq, Repr

/-! ### Gap classification (`models.mmfs_models.PreMarketData.__post_init__`) -/

/-- The `gap_pct` field computed by `PreMarketData.__post_init__`. -/
def gap_pct (previous_close today_open : ℚ) : ℚ :=
  if 0 < previous_close then
    (today_open - previous_close) / previous_close * 100
  else 0

/-- The `gap_type` field computed by `PreMarketData.__post_init__`:
classification of `|gap_pct|` against the hard-coded 0.30 / 0.80 thresholds. -/
def gap_type (previous_close today_open : ℚ) : GapType :=
  if 0 < previous_close then
    let abs_gap := |gap_pct previous_close today_open|
    if abs_gap ≤ 3/10 then GapType.SMALL
    else if abs_gap ≤ 8/10 then GapType.MODERATE
    else GapType.STRONG
  else GapType.NO_GAP

/-! ### Breadth classification
(`services.market_breadth_service.MarketBreadthService.calculate_breadth_ratio`) -/

/-- `MarketBreadthService.calculate_breadth_ratio` on already-fetched counts:
zero `declines` (and zero `advances`) are replaced by 1 before dividing, then
the ratio is classified against 1.5 and 1/1.5. -/
def calculate_breadth_ratio (advances declines : ℕ) : ℚ × String :=
  let declines' := if declines = 0 then 1 else declines
  let advances' := if advances = 0 then 1 else advances
  let ad_ratio : ℚ := (advances' : ℚ) / (declines' : ℚ)
  let classification :=
    if ad_ratio ≥ 3/2 then "BULLISH"
    else if ad_ratio ≤ 1 / (3/2) then "BEARISH"
    else "NEUTRAL"
  (ad_ratio, classification)

/-! ### Position lifecycle (`models.mmfs_models.MMFSPosition`) -/

/-- `models.mmfs_models.MMFSPosition` runtime state.  The Python field
`lowest_price` is initialised to `float('inf')` for LONG positions, modelled
here as `none`; `breakeven_time` is an optional timestamp. -/
structure MMFSPosition where
  signal_type : SignalType
  entry_price : ℚ
  quantity : ℤ
  stop_loss : ℚ
  target_price : ℚ
  max_holding_minutes : ℚ
  current_price : ℚ
  current_stop_loss : ℚ
  highest_price : ℚ
  lowest_price : Option ℚ
  unrealized_pnl : ℚ
  max_favorable_excursion : ℚ
  max_adverse_excursion : ℚ
  moved_to_breakeven : Bool
  breakeven_time : Option ℚ
deriving DecidableEq, Repr

/-- Python `min(x, p)` where `x` may be `float('inf')` (`none`). -/
def infMin (x : Option ℚ) (p : ℚ) : ℚ :=
  match x with
  | none => p
  | some v => min v p

/-- `MMFSPosition.__post_init__` on freshly constructed fields:
`current_stop_loss := stop_loss`, `highest_price := entry` for LONG else `0`,
`lowest_price := entry` for SHORT else `float('inf')` (`none`). -/
def mkPosition (signal_type : SignalType) (entry_price : ℚ) (quantity : ℤ)
    (stop_loss target_price max_holding_minutes : ℚ) : MMFSPosition :=
  { signal_type := signal_type
    entry_price := entry_price
    quantity := quantity
    stop_loss := stop_loss
    target_price := target_price
    max_holding_minutes := max_holding_minutes
    current_price := 0
    current_stop_loss := stop_loss
    highest_price := if signal_type = SignalType.LONG then entry_price else 0
    lowest_price := if signal_type = SignalType.SHORT then some entry_price else none
    unrealized_pnl := 0
    max_favorable_excursion := 0
    max_adverse_excursion := 0
    moved_to_breakeven := false
    breakeven_time := none }

/-- `MMFSPosition.update_price`: updates the running extreme, MFE/MAE and
unrealized P&L for one price tick.  Note that for a LONG position the code
only reads (never writes) `lowest_price`, and symmetrically for SHORT and
`highest_price`. -/
def update_price (pos : MMFSPosition) (current_price : ℚ) : MMFSPosition :=
  if pos.signal_type = SignalType.LONG then
    let highest := max pos.highest_price current_price
    let favorable_move := current_price - pos.entry_price
    let adverse_move := pos.entry_price - infMin pos.lowest_price current_price
    { pos with
      current_price := current_price
      highest_price := highest
      max_favorable_excursion := max pos.max_favorable_excursion favorable_move
      max_adverse_excursion := max pos.max_adverse_excursion adverse_move
      unrealized_pnl := (current_price - pos.entry_price) * pos.quantity }
  else
    let lowest := infMin pos.lowest_price current_price
    let favorable_move := pos.entry_price - current_price
    let adverse_move := max pos.highest_price current_price - pos.entry_price
    { pos with
      current_price := current_price
      lowest_price := some lowest
      max_favorable_excursion := max pos.max_favorable_excursion favorable_move
      max_adverse_excursion := max pos.max_adverse_excursion adverse_move
      unrealized_pnl := (pos.entry_price - current_price) * pos.quantity }

/-- `MMFSPosition.should_exit_by_time`, with the wall-clock holding duration
(in minutes) passed explicitly. -/
def should_exit_by_time (pos : MMFSPosition) (holding_minutes : ℚ) : Bool :=
  decide (pos.max_holding_minutes ≤ holding_minutes)

/-- `MMFSStrategy._should_move_to_breakeven`: is the position in profit
relative to its entry price. -/
def should_move_to_breakeven (pos : MMFSPosition) : Bool :=
  if pos.signal_type = SignalType.LONG then
    decide (pos.entry_price < pos.current_price)
  else
    decide (pos.current_price < pos.entry_price)

/-- `MMFSStrategy._move_to_breakeven`: stop to entry, flag set, timestamp
recorded. -/
def move_to_breakeven (pos : MMFSPosition) (now : ℚ) : MMFSPosition :=
  { pos with
    current_stop_loss := pos.entry_price
    moved_to_breakeven := true
    breakeven_time := some now }

/-- The breakeven block of `MMFSStrategy._monitor_positions`: promote only
when the flag is still unset, the holding duration has reached
`break_even_after_minutes`, and the position is in profit. -/
def breakeven_step (pos : MMFSPosition)
    (holding_minutes break_even_after_minutes now : ℚ) : MMFSPosition :=
  if pos.moved_to_breakeven = false ∧ break_even_after_minutes ≤ holding_minutes then
    if should_move_to_breakeven pos then move_to_breakeven pos now else pos
  else pos

/-- Outcome of one monitoring tick for one position. -/
inductive MonitorOutcome where
  | exitPosition (reason : String)
  | continueHolding (pos : MMFSPosition)
deriving DecidableEq, Repr

/-- One iteration of `MMFSStrategy._monitor_positions` for a single position,
as the code actually executes: the time-based exit fires first; the stop-loss
and target checks in the source are commented-out placeholders and perform no
action; otherwise the breakeven block runs. -/
def monitor_position_tick (pos : MMFSPosition)
    (holding_minutes break_even_after_minutes now : ℚ) : MonitorOutcome :=
  if should_exit_by_time pos holding_minutes then
    MonitorOutcome.exitPosition "TIME_BASED"
  else
    MonitorOutcome.continueHolding (breakeven_step pos holding_minutes break_even_after_minutes now)

/-! ### Trade results (`models.mmfs_models.MMFSTradeResult.__post_init__`) -/

/-- The estimated cost model of `MMFSTradeResult.__post_init__`: flat ₹20
brokerage per side, 0.025% STT, 0.00325% transaction charges, 18% GST on
brokerage plus transaction charges. -/
def trade_costs (exit_price : ℚ) (quantity : ℤ) : ℚ :=
  let brokerage : ℚ := 20
  let stt := |exit_price * quantity * (25/100000)|
  let transaction_charges := |exit_price * quantity * (325/10000000)|
  let gst := (brokerage + transaction_charges) * (18/100)
  brokerage * 2 + stt + transaction_charges + gst

/-- `models.mmfs_models.MMFSTradeResult` with its derived fields. -/
structure MMFSTradeResult where
  setup_type : MMFSSetupType
  signal_type : SignalType
  entry_price : ℚ
  exit_price : ℚ
  quantity : ℤ
  exit_reason : String
  max_favorable_excursion : ℚ
  max_adverse_excursion : ℚ
  signal_minute : ℤ
  gross_pnl : ℚ
  net_pnl : ℚ
  return_pct : ℚ
deriving DecidableEq, Repr

/-- Constructor arguments of `MMFSTradeResult` (the fields that are not
derived by `__post_init__`). -/
structure TradeSpec where
  setup_type : MMFSSetupType
  signal_type : SignalType
  entry_price : ℚ
  exit_price : ℚ
  quantity : ℤ
  exit_reason : String
  max_favorable_excursion : ℚ
  max_adverse_excursion : ℚ
  signal_minute : ℤ
deriving DecidableEq, Repr

/-- `MMFSTradeResult.__post_init__`: gross P&L signed by direction, net P&L
after the modelled costs, return percentage on deployed capital. -/
def mkTradeResult (t : TradeSpec) : MMFSTradeResult :=
  let gross :=
    if t.signal_type = SignalType.LONG then (t.exit_price - t.entry_price) * t.quantity
    else (t.entry_price - t.exit_price) * t.quantity
  let net := gross - trade_costs t.exit_price t.quantity
  let ret :=
    if 0 < |t.entry_price * t.quantity| then net / |t.entry_price * t.quantity| * 100 else 0
  { setup_type := t.setup_type
    signal_type := t.signal_type
    entry_price := t.entry_price
    exit_price := t.exit_price
    quantity := t.quantity
    exit_reason := t.exit_reason
    max_favorable_excursion := t.max_favorable_excursion
    max_adverse_excursion := t.max_adverse_excursion
    signal_minute := t.signal_minute
    gross_pnl := gross
    net_pnl := net
    return_pct := ret }

/-- `MMFSTradeResult.is_winner`. -/
def is_winner (t : MMFSTradeResult) : Bool := decide (0 < t.net_pnl)

/-- `MMFSTradeResult.is_loser`. -/
def is_loser (t : MMFSTradeResult) : Bool := decide (t.net_pnl < 0)

/-! ### Market state (`models.mmfs_models.MMFSMarketState`) -/

/-- The fields of `MMFSMarketState` consulted or mutated by trade gating and
post-trade bookkeeping. -/
structure MMFSMarketState where
  is_execution_window : Bool
  trades_today : ℕ
  daily_pnl : ℚ
  max_trades_reached : Bool
  daily_loss_limit_reached : Bool
  stop_trading_till_945 : Bool
deriving DecidableEq, Repr

/-- `MMFSMarketState.can_take_trade`: the four gates in source order
(execution window, max trades, daily loss limit, stop-after-first-loss),
returning the pair `(can_trade, reason)`. -/
def can_take_trade (s : MMFSMarketState) (max_trades : ℕ)
    (max_loss_pct portfolio_value : ℚ) : Bool × String :=
  if s.is_execution_window = false then
    (false, "Outside execution window")
  else if s.max_trades_reached = true ∨ max_trades ≤ s.trades_today then
    (false, "Max trades reached (" ++ toString max_trades ++ ")")
  else
    let max_loss_amount := portfolio_value * (max_loss_pct / 100)
    if s.daily_pnl ≤ -max_loss_amount then
      (false, "Daily loss limit reached (" ++ toString max_loss_pct ++ "%)")
    else if s.stop_trading_till_945 = true then
      (false, "Stopped after first loss (till 9:45)")
    else
      (true, "OK")

/-- `MMFSMarketState.update_after_trade`. -/
def update_after_trade (s : MMFSMarketState) (trade_pnl : ℚ) : MMFSMarketState :=
  { s with trades_today := s.trades_today + 1, daily_pnl := s.daily_pnl + trade_pnl }

/-- The market-state portion of `MMFSStrategy._exit_position`: the state is
updated with the trade's net P&L, then `stop_trading_till_945` is raised when
`stop_after_first_loss` is configured, the trade lost money, and it was the
day's first (now counted) trade. -/
def exit_position_update (stop_after_first_loss : Bool) (s : MMFSMarketState)
    (net_pnl : ℚ) : MMFSMarketState :=
  let s1 := update_after_trade s net_pnl
  if stop_after_first_loss = true ∧ net_pnl < 0 ∧ s1.trades_today = 1 then
    { s1 with stop_trading_till_945 := true }
  else s1

/-! ### Position sizing (`strategy.mmfs_strategy.MMFSStrategy._execute_signal`) -/

/-- Python `int(...)` applied to a rational: truncation toward zero. -/
def pyInt (q : ℚ) : ℤ := if 0 ≤ q then ⌊q⌋ else ⌈q⌉

/-- The position-sizing head of `MMFSStrategy._execute_signal`: risk a fixed
fraction of the portfolio, divide by the per-unit price risk and truncate;
`none` models the early return (trade skipped) when the price risk is zero. -/
def execute_signal_quantity (portfolio_value risk_per_trade_pct
    entry_price stop_loss : ℚ) : Option ℤ :=
  let risk_amount := portfolio_value * (risk_per_trade_pct / 100)
  let price_risk := |entry_price - stop_loss|
  if 0 < price_risk then some (pyInt (risk_amount / price_risk)) else none

/-! ### Metrics accumulator (`models.mmfs_models.MMFSStrategyMetrics`) -/

/-- `models.mmfs_models.MMFSStrategyMetrics`.  `profit_factor` is
`Option ℚ`, with `none` modelling Python's `float('inf')`;
`trades_by_minute` models the dict with keys 0–4. -/
structure MMFSStrategyMetrics where
  total_trades : ℕ := 0
  winning_trades : ℕ := 0
  losing_trades : ℕ := 0
  breakeven_trades : ℕ := 0
  setup1_trades : ℕ := 0
  setup1_wins : ℕ := 0
  setup2_trades : ℕ := 0
  setup2_wins : ℕ := 0
  setup3_trades : ℕ := 0
  setup3_wins : ℕ := 0
  setup4_trades : ℕ := 0
  setup4_wins : ℕ := 0
  gross_pnl : ℚ := 0
  net_pnl : ℚ := 0
  largest_win : ℚ := 0
  largest_loss : ℚ := 0
  average_win : ℚ := 0
  average_loss : ℚ := 0
  win_rate : ℚ := 0
  profit_factor : Option ℚ := some 0
  expectancy : ℚ := 0
  trades_by_minute : ℤ → ℕ := fun _ => 0
  target_exits : ℕ := 0
  stop_exits : ℕ := 0
  time_exits : ℕ := 0
  breakeven_exits : ℕ := 0

/-- The all-zero initial `MMFSStrategyMetrics`. -/
def initMetrics : MMFSStrategyMetrics := {}

/-- The setup-specific counter block of
`MMFSStrategyMetrics.update_from_trade` (an if/elif chain in the source). -/
def update_setups (m : MMFSStrategyMetrics) (t : MMFSTradeResult) : MMFSStrategyMetrics :=
  if t.setup_type = MMFSSetupType.GAP_UP_BREAKOUT then
    { m with setup1_trades := m.setup1_trades + 1
             setup1_wins := if is_winner t then m.setup1_wins + 1 else m.setup1_wins }
  else if t.setup_type = MMFSSetupType.GAP_UP_FAILURE then
    { m with setup2_trades := m.setup2_trades + 1
             setup2_wins := if is_winner t then m.setup2_wins + 1 else m.setup2_wins }
  else if t.setup_type = MMFSSetupType.GAP_DOWN_RECOVERY then
    { m with setup3_trades := m.setup3_trades + 1
             setup3_wins := if is_winner t then m.setup3_wins + 1 else m.setup3_wins }
  else if t.setup_type = MMFSSetupType.RANGE_BREAKDOWN then
    { m with setup4_trades := m.setup4_trades + 1
             setup4_wins := if is_winner t then m.setup4_wins + 1 else m.setup4_wins }
  else m

/-- The exit-reason counter block of `MMFSStrategyMetrics.update_from_trade`:
an if/elif chain on the four recognised reason strings; any other reason
(such as `"STRATEGY_STOP"`) increments nothing. -/
def update_exit_reason (m : MMFSStrategyMetrics) (reason : String) : MMFSStrategyMetrics :=
  if reason = "TARGET" then { m with target_exits := m.target_exits + 1 }
  else if reason = "STOP_LOSS" then { m with stop_exits := m.stop_exits + 1 }
  else if reason = "TIME_BASED" then { m with time_exits := m.time_exits + 1 }
  else if reason = "BREAKEVEN" then { m with breakeven_exits := m.breakeven_exits + 1 }
  else m

/-- The per-minute histogram block of
`MMFSStrategyMetrics.update_from_trade`: only existing keys 0–4 are bumped. -/
def update_minute (m : MMFSStrategyMetrics) (signal_minute : ℤ) : MMFSStrategyMetrics :=
  if 0 ≤ signal_minute ∧ signal_minute ≤ 4 then
    { m with trades_by_minute := fun k =>
        if k = signal_minute then m.trades_by_minute k + 1 else m.trades_by_minute k }
  else m

/-- `MMFSStrategyMetrics._recalculate_metrics`: win rate, conditionally
reassigned average win/loss, profit factor (with the `average_loss`
approximation from `largest_loss`), and expectancy. -/
def recalculate (m : MMFSStrategyMetrics) : MMFSStrategyMetrics :=
  let win_rate := if 0 < m.total_trades then (m.winning_trades : ℚ) / m.total_trades * 100 else 0
  let average_win :=
    if 0 < m.winning_trades then
      (if 0 < m.gross_pnl then m.gross_pnl / m.winning_trades else 0)
    else m.average_win
  let average_loss :=
    if 0 < m.losing_trades then
      (let total_losses := |m.largest_loss| * m.losing_trades
       if 0 < total_losses then -total_losses / m.losing_trades else 0)
    else m.average_loss
  let total_wins := if 0 < m.winning_trades then (m.winning_trades : ℚ) * |average_win| else 0
  let total_losses := if 0 < m.losing_trades then (m.losing_trades : ℚ) * |average_loss| else 0
  let profit_factor : Option ℚ :=
    if 0 < total_losses then some (total_wins / total_losses)
    else if 0 < total_wins then none else some 0
  let expectancy := if 0 < m.total_trades then m.net_pnl / m.total_trades else 0
  { m with win_rate := win_rate, average_win := average_win, average_loss := average_loss
           profit_factor := profit_factor, expectancy := expectancy }

/-- The accumulator mutations of `MMFSStrategyMetrics.update_from_trade`
(everything before the final `_recalculate_metrics` call), in source
order. -/
def accumulate (m : MMFSStrategyMetrics) (t : MMFSTradeResult) : MMFSStrategyMetrics :=
  let m1 := { m with total_trades := m.total_trades + 1 }
  let m2 :=
    if is_winner t then
      { m1 with winning_trades := m1.winning_trades + 1
                largest_win := max m1.largest_win t.net_pnl }
    else if is_loser t then
      { m1 with losing_trades := m1.losing_trades + 1
                largest_loss := min m1.largest_loss t.net_pnl }
    else
      { m1 with breakeven_trades := m1.breakeven_trades + 1 }
  let m3 := update_setups m2 t
  let m4 := { m3 with gross_pnl := m3.gross_pnl + t.gross_pnl
                      net_pnl := m3.net_pnl + t.net_pnl }
  let m5 := update_exit_reason m4 t.exit_reason
  update_minute m5 t.signal_minute

/-- `MMFSStrategyMetrics.update_from_trade`: the sequential mutations of the
source, ending in `_recalculate_metrics`. -/
def update_from_trade (m : MMFSStrategyMetrics) (t : MMFSTradeResult) : MMFSStrategyMetrics :=
  recalculate (accumulate m t)

/-- Folding a sequence of completed trades (built by
`MMFSTradeResult.__post_init__`) into a fresh metrics accumulator. -/
def foldTrades (ts : List TradeSpec) : MMFSStrategyMetrics :=
  ts.foldl (fun m t => update_from_trade m (mkTradeResult t)) initMetrics

/-- Is the exit reason one of the four counted by the exit-reason
histogram. -/
def isCountedExit (reason : String) : Bool :=
  reason = "TARGET" || reason = "STOP_LOSS" || reason = "TIME_BASED" || reason = "BREAKEVEN"

/-- The total of the four exit-reason counters. -/
def sumExits (m : MMFSStrategyMetrics) : ℕ :=
  m.target_exits + m.stop_exits + m.time_exits + m.breakeven_exits

/-- Accumulator invariant maintained by folding constructed trade results:
winners never outnumber trades; with no losers the gross P&L is non-negative,
and positive as soon as a trade exists; any loser drags `largest_loss` below
zero; and `average_win` stays 0 until a winner appears. -/
def MetricsInv (m : MMFSStrategyMetrics) : Prop :=
  m.winning_trades ≤ m.total_trades ∧
  (m.losing_trades = 0 → 0 ≤ m.gross_pnl ∧ (0 < m.total_trades → 0 < m.gross_pnl)) ∧
  (0 < m.losing_trades → m.largest_loss < 0) ∧
  (m.winning_trades = 0 → m.average_win = 0)

/-- The exact behaviour of the stored profit factor: `none` (infinity) iff
there are winners and no losers; `some 0` iff there are no winners or the
accumulated gross P&L is non-positive. -/
def ProfitFactorSpec (m : MMFSStrategyMetrics) : Prop :=
  (m.profit_factor = none ↔ 0 < m.winning_trades ∧ m.losing_trades = 0) ∧
  (m.profit_factor = some 0 ↔ m.winning_trades = 0 ∨ m.gross_pnl ≤ 0)

/-! ### Configuration validation (`config.mmfs_config`) -/

/-- The fields of `config.mmfs_config.MMFSStrategyConfig` used by the
validated and verified components, with their source defaults. -/
structure MMFSStrategyConfig where
  portfolio_value : ℚ := 100000
  risk_per_trade_pct : ℚ := 1/2
  max_positions : ℤ := 1
  execution_start_minute : ℤ := 15
  execution_end_minute : ℤ := 20
  max_holding_minutes : ℚ := 5
  small_gap_threshold : ℚ := 3/10
  moderate_gap_threshold : ℚ := 8/10
  risk_reward_ratio : ℚ := 3/2
  break_even_after_minutes : ℚ := 2
  max_trades_per_day : ℕ := 2
  max_loss_per_day_pct : ℚ := 1
  stop_after_first_loss : Bool := true
deriving DecidableEq, Repr

/-- The validation dict returned by `validate_mmfs_config`. -/
structure ValidationResult where
  valid : Bool
  errors : List String
  warnings : List String
deriving DecidableEq, Repr

/-- Append a hard error (clearing `valid`). -/
def addError (v : ValidationResult) (e : String) : ValidationResult :=
  { v with errors := v.errors ++ [e], valid := false }

/-- Append a warning. -/
def addWarning (v : ValidationResult) (w : String) : ValidationResult :=
  { v with warnings := v.warnings ++ [w] }

/-- `config.mmfs_config.validate_mmfs_config`: the full check sequence in
source order.  Note the risk check fires only for `risk ≤ 0` or `risk > 2`,
while its message announces the range 0.1%–2%. -/
def validate_mmfs_config (c : MMFSStrategyConfig) : ValidationResult :=
  let v := ValidationResult.mk true [] []
  let v := if c.portfolio_value ≤ 0 then addError v "Portfolio value must be positive" else v
  let v := if c.portfolio_value < 25000 then addWarning v "Portfolio value quite low for scalping" else v
  let v := if c.risk_per_trade_pct ≤ 0 ∨ 2 < c.risk_per_trade_pct then
             addError v "Risk per trade should be between 0.1% and 2%" else v
  let v := if 1 < c.risk_per_trade_pct then
             addWarning v "High risk per trade for scalping strategy" else v
  let v := if c.max_positions ≤ 0 ∨ 3 < c.max_positions then
             addError v "Max positions should be between 1 and 3 for scalping" else v
  let v := if c.execution_end_minute - c.execution_start_minute ≠ 5 then
             addWarning v "Execution window should be exactly 5 minutes" else v
  let v := if 10 < c.max_holding_minutes then
             addWarning v "Max holding period too long for scalping strategy" else v
  let v := if c.moderate_gap_threshold ≤ c.small_gap_threshold then
             addError v "Small gap threshold must be less than moderate" else v
  let v := if c.risk_reward_ratio < 1 then
             addWarning v "Risk-reward ratio below 1:1 not recommended" else v
  let v := if 5 < c.max_trades_per_day then
             addWarning v "Too many trades per day for scalping strategy" else v
  let v := if 2 < c.max_loss_per_day_pct then
             addWarning v "Daily loss limit high for scalping" else v
  v

/-! ### Concrete instances used by counterexamples and witnesses -/

/-- A configuration identical to the defaults except
`risk_per_trade_pct = 0.05`, which lies below the documented lower bound. -/
def lowRiskConfig : MMFSStrategyConfig := { risk_per_trade_pct := 1/20 }

/-- A LONG position entered at 100 with stop 95 and target 110, after one
price tick to 94 (below the stop). -/
def touchedStopPosition : MMFSPosition :=
  update_price (mkPosition SignalType.LONG 100 10 95 110 5) 94

/-- A winning LONG trade: 100 → 110 on 10 units. -/
def winnerSpec : TradeSpec :=
  { setup_type := MMFSSetupType.GAP_UP_BREAKOUT
    signal_type := SignalType.LONG
    entry_price := 100
    exit_price := 110
    quantity := 10
    exit_reason := "TARGET"
    max_favorable_excursion := 10
    max_adverse_excursion := 0
    signal_minute := 1 }

/-- A losing LONG trade: 100 → 80 on 10 units, outweighing the winner's
gross gain. -/
def loserSpec : TradeSpec :=
  { setup_type := MMFSSetupType.GAP_UP_BREAKOUT
    signal_type := SignalType.LONG
    entry_price := 100
    exit_price := 80
    quantity := 10
    exit_reason := "STOP_LOSS"
    max_favorable_excursion := 0
    max_adverse_excursion := 20
    signal_minute := 1 }

/-- A trade closed by a forced strategy stop (`MMFSStrategy.stop`). -/
def strategyStopSpec : TradeSpec :=
  { setup_type := MMFSSetupType.GAP_UP_BREAKOUT
    signal_type := SignalType.LONG
    entry_price := 100
    exit_price := 100
    quantity := 10
    exit_reason := "STRATEGY_STOP"
    max_favorable_excursion := 0
    max_adverse_excursion := 0
    signal_minute := 1 }

/-- A market state sitting outside the execution window whose
`stop_trading_till_945` flag was raised by a first losing trade. -/
def afterHoursState : MMFSMarketState :=
  exit_position_update true
    { is_execution_window := false
      trades_today := 0
      daily_pnl := 0
      max_trades_reached := false
      daily_loss_limit_reached := false
      stop_trading_till_945 := false }
    (-500)

/-- A market state inside the execution window whose flag was raised by a
first losing trade. -/
def inWindowLossState : MMFSMarketState :=
  exit_position_update true
    { is_execution_window := true
      trades_today := 0
      daily_pnl := 0
      max_trades_reached := false
      daily_loss_limit_reached := false
      stop_trading_till_945 := false }
    (-500)

/-- List maximum seeded with the head (the running `max` of the source). -/
def listMax : List ℚ → ℚ
  | [] => 0
  | x :: xs => xs.foldl max x

/-- List minimum seeded with the head. -/
def listMin : List ℚ → ℚ
  | [] => 0
  | x :: xs => xs.foldl min x

/-- Folding a sequence of price ticks through `update_price`. -/
def foldPrices (pos : MMFSPosition) (ps : List ℚ) : MMFSPosition :=
  ps.foldl update_price pos

/-! ## Theorems -/

/-- Claim C5: for positive previous close the gap percentage is exactly
`(open − prevClose)/prevClose × 100` and the gap type buckets `|gapPct|` at
0.30 and 0.80; for non-positive previous close the result is `NO_GAP` with
gap percentage 0 and no division occurs. -/
theorem gap_classifier_spec (pc op : ℚ) :
    (0 < pc →
      gap_pct pc op = (op - pc) / pc * 100 ∧
      (gap_type pc op = GapType.SMALL ↔ |gap_pct pc op| ≤ 3/10) ∧
      (gap_type pc op = GapType.MODERATE ↔
        3/10 < |gap_pct pc op| ∧ |gap_pct pc op| ≤ 8/10) ∧
      (gap_type pc op = GapType.STRONG ↔ 8/10 < |gap_pct pc op|)) ∧
    (pc ≤ 0 → gap_pct pc op = 0 ∧ gap_type pc op = GapType.NO_GAP) := by
  constructor
  · intro h
    have hv : gap_pct pc op = (op - pc) / pc * 100 := by simp [gap_pct, h]
    refine ⟨hv, ?_⟩
    have hg : gap_type pc op =
        (if |gap_pct pc op| ≤ 3/10 then GapType.SMALL
         else if |gap_pct pc op| ≤ 8/10 then GapType.MODERATE
         else GapType.STRONG) := by
      simp [gap_type, h]
    rcases le_or_lt |gap_pct pc op| (3/10) with h1 | h1
    · rw [hg, if_pos h1]
      refine ⟨by simp [h1], ?_, ?_⟩
      · simp only [iff_false_intro (by decide : GapType.SMALL ≠ GapType.MODERATE) ]
        exact ⟨fun hc => absurd hc (by decide), fun hc => absurd h1 (not_le.mpr hc.1)⟩
      · exact ⟨fun hc => absurd hc (by decide), fun hc => absurd h1 (not_le.mpr (by linarith))⟩
    · rcases le_or_lt |gap_pct pc op| (8/10) with h2 | h2
      · rw [hg, if_neg (not_le.mpr h1), if_pos h2]
        refine ⟨⟨fun hc => absurd hc (by decide), fun hc => absurd h1 (not_lt.mpr hc)⟩,
          by simp [h1, h2], ⟨fun hc => absurd hc (by decide), fun hc => absurd h2 (not_le.mpr hc)⟩⟩
      · rw [hg, if_neg (not_le.mpr h1), if_neg (not_le.mpr h2)]
        refine ⟨⟨fun hc => absurd hc (by decide), fun hc => absurd h1 (not_lt.mpr hc)⟩,
          ⟨fun hc => absurd hc (by decide), fun hc => absurd hc.2 (not_le.mpr h2)⟩,
          by simp [h2]⟩
  · intro h
    exact ⟨by simp [gap_pct, not_lt.mpr h], by simp [gap_type, not_lt.mpr h]⟩

/-- Witness for C5: the spec's scenario, previous close 21500 and open 21580,
yields a gap of exactly 8/21.5 percent, classified MODERATE. -/
theorem gap_classifier_spec_witness :
    (0 : ℚ) < 21500 ∧ gap_pct 21500 21580 = 16/43 ∧
      gap_type 21500 21580 = GapType.MODERATE := by
  have h := (gap_classifier_spec 21500 21580).1 (by norm_num)
  refine ⟨by norm_num, ?_, ?_⟩
  · rw [h.1]; norm_num
  · have hv : |gap_pct 21500 21580| = 16/43 := by rw [h.1]; norm_num
    exact (h.2.2.1).mpr (by rw [hv]; norm_num)

/-- Claim C9: the breadth-ratio calculation is total (never raises), computes
the ratio after substituting 1 for zero declines and zero advances, and
classifies `BULLISH` iff ratio ≥ 1.5, `BEARISH` iff ratio ≤ 1/1.5, `NEUTRAL`
otherwise. -/
theorem breadth_ratio_spec (advances declines : ℕ) :
    (calculate_breadth_ratio advances declines).1 =
      ((if advances = 0 then 1 else advances : ℕ) : ℚ) /
      ((if declines = 0 then 1 else declines : ℕ) : ℚ) ∧
    ((calculate_breadth_ratio advances declines).2 = "BULLISH" ↔
      3/2 ≤ (calculate_breadth_ratio advances declines).1) ∧
    ((calculate_breadth_ratio advances declines).2 = "BEARISH" ↔
      (calculate_breadth_ratio advances declines).1 ≤ 2/3) ∧
    ((calculate_breadth_ratio advances declines).2 = "NEUTRAL" ↔
      2/3 < (calculate_breadth_ratio advances declines).1 ∧
      (calculate_breadth_ratio advances declines).1 < 3/2) := by
  set r : ℚ := ((if advances = 0 then 1 else advances : ℕ) : ℚ) /
      ((if declines = 0 then 1 else declines : ℕ) : ℚ) with hr
  have h1 : (calculate_breadth_ratio advances declines).1 = r := by
    simp [calculate_breadth_ratio, hr]
  have h23 : (1 : ℚ) / (3/2) = 2/3 := by norm_num
  have h2 : (calculate_breadth_ratio advances declines).2 =
      (if r ≥ 3/2 then "BULLISH" else if r ≤ 2/3 then "BEARISH" else "NEUTRAL") := by
    simp [calculate_breadth_ratio, hr, h23]
  refine ⟨h1, ?_⟩
  rw [h1, h2]
  rcases le_or_lt (3/2 : ℚ) r with hb | hb
  · rw [if_pos hb]
    refine ⟨by simp [hb], ?_, ?_⟩
    · exact ⟨fun hc => absurd hc (by decide), fun hc => absurd hb (by linarith)⟩
    · exact ⟨fun hc => absurd hc (by decide), fun hc => absurd hb (not_le.mpr hc.2)⟩
  · rcases le_or_lt r (2/3 : ℚ) with hs | hs
    · rw [if_neg (not_le.mpr hb), if_pos hs]
      refine ⟨⟨fun hc => absurd hc (by decide), fun hc => absurd hb (not_lt.mpr hc)⟩,
        by simp [hs], ⟨fun hc => absurd hc (by decide), fun hc => absurd hs (not_le.mpr hc.1)⟩⟩
    · rw [if_neg (not_le.mpr hb), if_neg (not_le.mpr hs)]
      exact ⟨⟨fun hc => absurd hc (by decide), fun hc => absurd hb (not_lt.mpr hc)⟩,
        ⟨fun hc => absurd hc (by decide), fun hc => absurd hc (not_le.mpr hs)⟩,
        by simp [hs, hb]⟩

/-- Claim C4: for positive portfolio value and risk percentage, when entry
and stop differ the computed quantity obeys
`quantity × |entry − stop| ≤ portfolioValue × riskPct/100` (the division is
rounded down), and when entry equals stop the trade is skipped. -/
theorem position_sizing_spec (pv rp entry stop : ℚ)
    (hpv : 0 < pv) (hrp : 0 < rp) :
    (entry ≠ stop →
      ∃ q : ℤ, execute_signal_quantity pv rp entry stop = some q ∧
        (q : ℚ) * |entry - stop| ≤ pv * (rp / 100)) ∧
    (entry = stop → execute_signal_quantity pv rp entry stop = none) := by
  constructor
  · intro hne
    have hpr : 0 < |entry - stop| := abs_pos.mpr (sub_ne_zero.mpr hne)
    have hra : 0 < pv * (rp / 100) := by positivity
    have hquot : 0 ≤ pv * (rp / 100) / |entry - stop| := by positivity
    refine ⟨pyInt (pv * (rp / 100) / |entry - stop|), ?_, ?_⟩
    · simp [execute_signal_quantity, hpr]
    · rw [pyInt, if_pos hquot]
      calc (↑⌊pv * (rp / 100) / |entry - stop|⌋ : ℚ) * |entry - stop|
          ≤ pv * (rp / 100) / |entry - stop| * |entry - stop| :=
            mul_le_mul_of_nonneg_right (Int.floor_le _) (le_of_lt hpr)
        _ = pv * (rp / 100) := div_mul_cancel₀ _ (ne_of_gt hpr)
  · intro he
    simp [execute_signal_quantity, he]

/-- Witness for C4: the spec's scenario (₹100000 portfolio, 0.5% risk, entry
21600, stop 21550) produces a quantity of 10 risking at most ₹500. -/
theorem position_sizing_spec_witness :
    ∃ q : ℤ, execute_signal_quantity 100000 (1/2) 21600 21550 = some q ∧
      (q : ℚ) * |(21600 : ℚ) - 21550| ≤ 100000 * ((1/2) / 100) :=
  (position_sizing_spec 100000 (1/2) 21600 21550 (by norm_num) (by norm_num)).1
    (by norm_num)

/-- Claim C8: breakeven promotion is idempotent.  A monitoring step that
changes the position at all performs the breakeven move (stop to entry, flag
set); and once `moved_to_breakeven` is true a step leaves the position — its
stop and `breakeven_time` included — untouched. -/
theorem breakeven_idempotent (pos : MMFSPosition) (h c t : ℚ) :
    (breakeven_step pos h c t ≠ pos →
      (breakeven_step pos h c t).moved_to_breakeven = true ∧
      (breakeven_step pos h c t).current_stop_loss = pos.entry_price) ∧
    (pos.moved_to_breakeven = true → breakeven_step pos h c t = pos) := by
  constructor
  · intro hne
    by_cases hg : pos.moved_to_breakeven = false ∧ c ≤ h
    · by_cases hp : should_move_to_breakeven pos = true
      · simp [breakeven_step, hg, hp, move_to_breakeven]
      · exact absurd (by simp [breakeven_step, hg, hp]) hne
    · exact absurd (by simp [breakeven_step, hg]) hne
  · intro hm
    have : ¬ (pos.moved_to_breakeven = false ∧ c ≤ h) := by simp [hm]
    simp [breakeven_step, this]

/-- Witness for C8: a position already at breakeven is unchanged by a
further in-profit monitoring step. -/
theorem breakeven_idempotent_witness :
    (move_to_breakeven (update_price (mkPosition SignalType.LONG 100 10 95 110 5) 101) 2
      ).moved_to_breakeven = true ∧
    breakeven_step
      (move_to_breakeven (update_price (mkPosition SignalType.LONG 100 10 95 110 5) 101) 2)
      3 2 3 =
      move_to_breakeven (update_price (mkPosition SignalType.LONG 100 10 95 110 5) 101) 2 :=
  ⟨rfl,
   (breakeven_idempotent
      (move_to_breakeven (update_price (mkPosition SignalType.LONG 100 10 95 110 5) 101) 2)
      3 2 3).2 rfl⟩

/-- Claim C2 (divergence witness): on a monitoring tick, a LONG position
whose current price (94) sits below its active stop (95) is not exited —
`monitor_position_tick` only ever produces the TIME_BASED exit, because the
stop-loss and target checks in `_monitor_positions` are commented-out
placeholders. -/
theorem stop_touch_not_exited :
    touchedStopPosition.current_price < touchedStopPosition.current_stop_loss ∧
    monitor_position_tick touchedStopPosition 1 2 1 =
      MonitorOutcome.continueHolding touchedStopPosition := by
  exact ⟨by decide, rfl⟩

/-- Claim C7 (divergence witness): a configuration whose
`risk_per_trade_pct` is 0.05 — outside the documented interval [0.1, 2] —
passes validation with no errors, because the source only rejects values
that are non-positive or above 2. -/
theorem low_risk_config_accepted :
    lowRiskConfig.risk_per_trade_pct < 1/10 ∧
    (validate_mmfs_config lowRiskConfig).valid = true ∧
    (validate_mmfs_config lowRiskConfig).errors = [] := by
  refine ⟨by norm_num [lowRiskConfig], ?_, ?_⟩ <;>
    norm_num [validate_mmfs_config, lowRiskConfig, addError, addWarning]

/-- `can_take_trade` with its internal `let` expanded. -/
theorem can_take_trade_eval (s : MMFSMarketState) (mt : ℕ) (mlp pv : ℚ) :
    can_take_trade s mt mlp pv =
      (if s.is_execution_window = false then (false, "Outside execution window")
       else if s.max_trades_reached = true ∨ mt ≤ s.trades_today then
         (false, "Max trades reached (" ++ toString mt ++ ")")
       else if s.daily_pnl ≤ -(pv * (mlp / 100)) then
         (false, "Daily loss limit reached (" ++ toString mlp ++ "%)")
       else if s.stop_trading_till_945 = true then
         (false, "Stopped after first loss (till 9:45)")
       else (true, "OK")) := rfl

/-- Whatever the reason, a halted state can never trade. -/
theorem can_take_trade_halted (s : MMFSMarketState) (mt : ℕ) (mlp pv : ℚ)
    (hstop : s.stop_trading_till_945 = true) :
    (can_take_trade s mt mlp pv).1 = false := by
  rw [can_take_trade_eval]
  split_ifs with g1 g2 g3 <;> rfl

/-- The state produced by `_exit_position` after a first losing trade with
`stop_after_first_loss` enabled. -/
theorem exit_position_update_first_loss (s : MMFSMarketState) (net : ℚ)
    (hnet : net < 0) (hfirst : s.trades_today = 0) :
    exit_position_update true s net =
      { update_after_trade s net with stop_trading_till_945 := true } := by
  have h1 : (update_after_trade s net).trades_today = 1 := by
    simp [update_after_trade, hfirst]
  simp [exit_position_update, hnet, h1]

/-- Claim C1 (corrected): after a first losing trade with
`stop_after_first_loss` enabled, `stop_trading_till_945` is set and
`can_take_trade` always returns `False`; the reason string
`"Stopped after first loss (till 9:45)"` is produced exactly when the three
earlier gates (execution window, max trades, daily loss limit) pass —
otherwise the earlier gate's reason takes precedence. -/
theorem first_loss_halts_trading (s : MMFSMarketState) (net : ℚ)
    (mt : ℕ) (mlp pv : ℚ)
    (hnet : net < 0) (hfirst : s.trades_today = 0) :
    (exit_position_update true s net).stop_trading_till_945 = true ∧
    (can_take_trade (exit_position_update true s net) mt mlp pv).1 = false ∧
    ((exit_position_update true s net).is_execution_window = true →
      (exit_position_update true s net).max_trades_reached = false →
      (exit_position_update true s net).trades_today < mt →
      -(pv * (mlp / 100)) < (exit_position_update true s net).daily_pnl →
      can_take_trade (exit_position_update true s net) mt mlp pv =
        (false, "Stopped after first loss (till 9:45)")) := by
  have hs := exit_position_update_first_loss s net hnet hfirst
  have hstop : (exit_position_update true s net).stop_trading_till_945 = true := by
    rw [hs]
  refine ⟨hstop, can_take_trade_halted _ _ _ _ hstop, ?_⟩
  intro hw hmt htr hpnl
  rw [can_take_trade_eval]
  have g2 : ¬ ((exit_position_update true s net).max_trades_reached = true ∨
      mt ≤ (exit_position_update true s net).trades_today) := by
    rw [not_or]
    exact ⟨by simp [hmt], not_le.mpr htr⟩
  rw [if_neg (by simp [hw]), if_neg g2, if_neg (not_le.mpr hpnl), if_pos hstop]

/-- Witness for C1: a concrete in-window state after a first ₹500 loss is
halted with the stop-after-first-loss reason. -/
theorem first_loss_halts_trading_witness :
    (-500 : ℚ) < 0 ∧ inWindowLossState.trades_today = 1 ∧
    can_take_trade inWindowLossState 2 1 100000 =
      (false, "Stopped after first loss (till 9:45)") := by
  have hbase := first_loss_halts_trading
    { is_execution_window := true
      trades_today := 0
      daily_pnl := 0
      max_trades_reached := false
      daily_loss_limit_reached := false
      stop_trading_till_945 := false }
    (-500) 2 1 100000 (by norm_num) rfl
  refine ⟨by norm_num, ?_, ?_⟩
  · norm_num [inWindowLossState, exit_position_update, update_after_trade]
  · exact hbase.2.2
      (by norm_num [exit_position_update, update_after_trade])
      (by norm_num [exit_position_update, update_after_trade])
      (by norm_num [exit_position_update, update_after_trade])
      (by norm_num [exit_position_update, update_after_trade])

/-- Counterexample to C1 as stated: the same first-loss state outside the
execution window has `stop_trading_till_945 = true`, yet `can_take_trade`
returns the execution-window reason, not
`"Stopped after first loss (till 9:45)"`. -/
theorem first_loss_reason_not_unconditional :
    afterHoursState.stop_trading_till_945 = true ∧
    can_take_trade afterHoursState 2 1 100000 = (false, "Outside execution window") ∧
    can_take_trade afterHoursState 2 1 100000 ≠
      (false, "Stopped after first loss (till 9:45)") := by
  have hst : afterHoursState.stop_trading_till_945 = true := by
    norm_num [afterHoursState, exit_position_update, update_after_trade]
  have hwin : afterHoursState.is_execution_window = false := by
    norm_num [afterHoursState, exit_position_update, update_after_trade]
  have h1 : can_take_trade afterHoursState 2 1 100000 =
      (false, "Outside execution window") := by
    rw [can_take_trade_eval, if_pos hwin]
  refine ⟨hst, h1, ?_⟩
  rw [h1]
  intro hc
  exact absurd (congrArg Prod.snd hc) (by decide)

/-- One `update_price` tick on a LONG position whose `lowest_price` is still
the initial `float('inf')`: the favorable move is `p − entry` and, because
`lowest_price` is never written on the LONG branch, the adverse move is
`entry − p`. -/
theorem update_price_long (pos : MMFSPosition) (p : ℚ)
    (hL : pos.signal_type = SignalType.LONG) (hlow : pos.lowest_price = none) :
    update_price pos p =
      { pos with
        current_price := p
        highest_price := max pos.highest_price p
        max_favorable_excursion := max pos.max_favorable_excursion (p - pos.entry_price)
        max_adverse_excursion := max pos.max_adverse_excursion (pos.entry_price - p)
        unrealized_pnl := (p - pos.entry_price) * pos.quantity } := by
  simp [update_price, hL, hlow, infMin]

/-- Folding price ticks into a LONG position accumulates MFE and MAE as
running maxima of `p − entry` and `entry − p`. -/
theorem foldPrices_long (ps : List ℚ) (pos : MMFSPosition)
    (hL : pos.signal_type = SignalType.LONG) (hlow : pos.lowest_price = none) :
    (foldPrices pos ps).signal_type = SignalType.LONG ∧
    (foldPrices pos ps).lowest_price = none ∧
    (foldPrices pos ps).entry_price = pos.entry_price ∧
    (foldPrices pos ps).max_favorable_excursion =
      ps.foldl (fun m p => max m (p - pos.entry_price)) pos.max_favorable_excursion ∧
    (foldPrices pos ps).max_adverse_excursion =
      ps.foldl (fun m p => max m (pos.entry_price - p)) pos.max_adverse_excursion := by
  induction ps generalizing pos with
  | nil => exact ⟨hL, hlow, rfl, rfl, rfl⟩
  | cons x xs ih =>
    have hx := update_price_long pos x hL hlow
    have h1 : (update_price pos x).signal_type = SignalType.LONG := by rw [hx]; exact hL
    have h2 : (update_price pos x).lowest_price = none := by rw [hx]; exact hlow
    have hi := ih (update_price pos x) h1 h2
    have hfold : foldPrices pos (x :: xs) = foldPrices (update_price pos x) xs := rfl
    have he : (update_price pos x).entry_price = pos.entry_price := by rw [hx]
    have hm : (update_price pos x).max_favorable_excursion =
        max pos.max_favorable_excursion (x - pos.entry_price) := by rw [hx]
    have ha : (update_price pos x).max_adverse_excursion =
        max pos.max_adverse_excursion (pos.entry_price - x) := by rw [hx]
    refine ⟨hfold ▸ hi.1, hfold ▸ hi.2.1, ?_, ?_, ?_⟩
    · rw [hfold, hi.2.2.1, he]
    · rw [hfold, hi.2.2.2.1, he, List.foldl_cons, hm]
    · rw [hfold, hi.2.2.2.2, he, List.foldl_cons, ha]

/-- Accumulating maxima of `p − e` over a list equals the shifted maximum of
the list. -/
theorem foldl_max_sub (e : ℚ) (xs : List ℚ) : ∀ (m a : ℚ),
    xs.foldl (fun acc p => max acc (p - e)) (max m (a - e)) =
      max m (xs.foldl max a - e) := by
  induction xs with
  | nil => intro m a; rfl
  | cons y ys ih =>
    intro m a
    have h : max (max m (a - e)) (y - e) = max m (max a y - e) := by
      rw [max_assoc, max_sub_sub_right]
    simp only [List.foldl_cons]
    rw [h, ih]

/-- Accumulating maxima of `e − p` over a list equals `e` minus the minimum
of the list. -/
theorem foldl_max_sub_left (e : ℚ) (xs : List ℚ) : ∀ (m a : ℚ),
    xs.foldl (fun acc p => max acc (e - p)) (max m (e - a)) =
      max m (e - xs.foldl min a) := by
  induction xs with
  | nil => intro m a; rfl
  | cons y ys ih =>
    intro m a
    have h : max (max m (e - a)) (e - y) = max m (e - min a y) := by
      rw [max_assoc, max_sub_sub_left]
    simp only [List.foldl_cons]
    rw [h, ih]

/-- Claim C3: for a LONG position, after any non-empty sequence of
`update_price` ticks, `max_favorable_excursion = max 0 (highest tick − entry)`
and `max_adverse_excursion = max 0 (entry − lowest tick)`; and the LONG trade
result of entering at 21600 with quantity 50 and exiting at 21650 has a
gross P&L of 2500. -/
theorem long_position_excursions (e s t mh : ℚ) (q : ℤ) (ps : List ℚ)
    (hne : ps ≠ []) :
    (foldPrices (mkPosition SignalType.LONG e q s t mh) ps).max_favorable_excursion =
      max 0 (listMax ps - e) ∧
    (foldPrices (mkPosition SignalType.LONG e q s t mh) ps).max_adverse_excursion =
      max 0 (e - listMin ps) ∧
    (mkTradeResult
      { setup_type := MMFSSetupType.GAP_UP_BREAKOUT
        signal_type := SignalType.LONG
        entry_price := 21600
        exit_price := 21650
        quantity := 50
        exit_reason := "TARGET"
        max_favorable_excursion := 50
        max_adverse_excursion := 10
        signal_minute := 1 }).gross_pnl = 2500 := by
  obtain ⟨x, xs, rfl⟩ := List.exists_cons_of_ne_nil hne
  set P0 := mkPosition SignalType.LONG e q s t mh with hP0
  have hL : P0.signal_type = SignalType.LONG := rfl
  have hlow : P0.lowest_price = none := by simp [hP0, mkPosition]
  have hent : P0.entry_price = e := rfl
  have hmfe0 : P0.max_favorable_excursion = 0 := rfl
  have hmae0 : P0.max_adverse_excursion = 0 := rfl
  have hf := foldPrices_long (x :: xs) P0 hL hlow
  refine ⟨?_, ?_, ?_⟩
  · rw [hf.2.2.2.1, hent, hmfe0, List.foldl_cons]
    have h0 : max (0 : ℚ) (x - e) = max 0 (x - e) := rfl
    calc xs.foldl (fun m p => max m (p - e)) (max 0 (x - e))
        = max 0 (xs.foldl max x - e) := foldl_max_sub e xs 0 x
      _ = max 0 (listMax (x :: xs) - e) := by rw [listMax]
  · rw [hf.2.2.2.2, hent, hmae0, List.foldl_cons]
    calc xs.foldl (fun m p => max m (e - p)) (max 0 (e - x))
        = max 0 (e - xs.foldl min x) := foldl_max_sub_left e xs 0 x
      _ = max 0 (e - listMin (x :: xs)) := by rw [listMin]
  · norm_num [mkTradeResult]

/-- Witness for C3: the spec's scenario — LONG at 21600, ticks 21650, 21590,
21650 — ends with MFE 50 and MAE 10. -/
theorem long_position_excursions_witness :
    ([21650, 21590, 21650] : List ℚ) ≠ [] ∧
    (foldPrices (mkPosition SignalType.LONG 21600 50 21550 21650 5)
      [21650, 21590, 21650]).max_favorable_excursion = 50 ∧
    (foldPrices (mkPosition SignalType.LONG 21600 50 21550 21650 5)
      [21650, 21590, 21650]).max_adverse_excursion = 10 := by
  have h := long_position_excursions 21600 21550 21650 5 50 [21650, 21590, 21650]
    (by simp)
  refine ⟨by simp, ?_, ?_⟩
  · rw [h.1]
    norm_num [listMax, List.foldl, max_def]
  · rw [h.2.1]
    norm_num [listMin, List.foldl, max_def, min_def]

/-! Projection lemmas: each block of `update_from_trade` leaves the fields it
does not mention untouched. -/

theorem update_setups_total (m : MMFSStrategyMetrics) (t : MMFSTradeResult) :
    (update_setups m t).total_trades = m.total_trades := by
  unfold update_setups; split_ifs <;> rfl

theorem update_setups_winning (m : MMFSStrategyMetrics) (t : MMFSTradeResult) :
    (update_setups m t).winning_trades = m.winning_trades := by
  unfold update_setups; split_ifs <;> rfl

theorem update_setups_losing (m : MMFSStrategyMetrics) (t : MMFSTradeResult) :
    (update_setups m t).losing_trades = m.losing_trades := by
  unfold update_setups; split_ifs <;> rfl

theorem update_setups_gross (m : MMFSStrategyMetrics) (t : MMFSTradeResult) :
    (update_setups m t).gross_pnl = m.gross_pnl := by
  unfold update_setups; split_ifs <;> rfl

theorem update_setups_largest_loss (m : MMFSStrategyMetrics) (t : MMFSTradeResult) :
    (update_setups m t).largest_loss = m.largest_loss := by
  unfold update_setups; split_ifs <;> rfl

theorem update_setups_average_win (m : MMFSStrategyMetrics) (t : MMFSTradeResult) :
    (update_setups m t).average_win = m.average_win := by
  unfold update_setups; split_ifs <;> rfl

theorem update_setups_sumExits (m : MMFSStrategyMetrics) (t : MMFSTradeResult) :
    sumExits (update_setups m t) = sumExits m := by
  unfold sumExits update_setups; split_ifs <;> rfl

theorem update_exit_reason_total (m : MMFSStrategyMetrics) (r : String) :
    (update_exit_reason m r).total_trades = m.total_trades := by
  unfold update_exit_reason; split_ifs <;> rfl

theorem update_exit_reason_winning (m : MMFSStrategyMetrics) (r : String) :
    (update_exit_reason m r).winning_trades = m.winning_trades := by
  unfold update_exit_reason; split_ifs <;> rfl

theorem update_exit_reason_losing (m : MMFSStrategyMetrics) (r : String) :
    (update_exit_reason m r).losing_trades = m.losing_trades := by
  unfold update_exit_reason; split_ifs <;> rfl

theorem update_exit_reason_gross (m : MMFSStrategyMetrics) (r : String) :
    (update_exit_reason m r).gross_pnl = m.gross_pnl := by
  unfold update_exit_reason; split_ifs <;> rfl

theorem update_exit_reason_largest_loss (m : MMFSStrategyMetrics) (r : String) :
    (update_exit_reason m r).largest_loss = m.largest_loss := by
  unfold update_exit_reason; split_ifs <;> rfl

theorem update_exit_reason_average_win (m : MMFSStrategyMetrics) (r : String) :
    (update_exit_reason m r).average_win = m.average_win := by
  unfold update_exit_reason; split_ifs <;> rfl

theorem update_exit_reason_sumExits (m : MMFSStrategyMetrics) (r : String) :
    sumExits (update_exit_reason m r) =
      sumExits m + (if isCountedExit r then 1 else 0) := by
  unfold sumExits update_exit_reason isCountedExit
  split_ifs with h1 h2 h3 h4 <;> simp_all <;> omega

theorem update_minute_total (m : MMFSStrategyMetrics) (sm : ℤ) :
    (update_minute m sm).total_trades = m.total_trades := by
  unfold update_minute; split_ifs <;> rfl

theorem update_minute_winning (m : MMFSStrategyMetrics) (sm : ℤ) :
    (update_minute m sm).winning_trades = m.winning_trades := by
  unfold update_minute; split_ifs <;> rfl

theorem update_minute_losing (m : MMFSStrategyMetrics) (sm : ℤ) :
    (update_minute m sm).losing_trades = m.losing_trades := by
  unfold update_minute; split_ifs <;> rfl

theorem update_minute_gross (m : MMFSStrategyMetrics) (sm : ℤ) :
    (update_minute m sm).gross_pnl = m.gross_pnl := by
  unfold update_minute; split_ifs <;> rfl

theorem update_minute_largest_loss (m : MMFSStrategyMetrics) (sm : ℤ) :
    (update_minute m sm).largest_loss = m.largest_loss := by
  unfold update_minute; split_ifs <;> rfl

theorem update_minute_average_win (m : MMFSStrategyMetrics) (sm : ℤ) :
    (update_minute m sm).average_win = m.average_win := by
  unfold update_minute; split_ifs <;> rfl

theorem update_minute_sumExits (m : MMFSStrategyMetrics) (sm : ℤ) :
    sumExits (update_minute m sm) = sumExits m := by
  unfold sumExits update_minute; split_ifs <;> rfl

theorem recalculate_total (m : MMFSStrategyMetrics) :
    (recalculate m).total_trades = m.total_trades := rfl

theorem recalculate_winning (m : MMFSStrategyMetrics) :
    (recalculate m).winning_trades = m.winning_trades := rfl

theorem recalculate_losing (m : MMFSStrategyMetrics) :
    (recalculate m).losing_trades = m.losing_trades := rfl

theorem recalculate_gross (m : MMFSStrategyMetrics) :
    (recalculate m).gross_pnl = m.gross_pnl := rfl

theorem recalculate_largest_loss (m : MMFSStrategyMetrics) :
    (recalculate m).largest_loss = m.largest_loss := rfl

theorem recalculate_sumExits (m : MMFSStrategyMetrics) :
    sumExits (recalculate m) = sumExits m := rfl

theorem recalculate_average_win (m : MMFSStrategyMetrics) :
    (recalculate m).average_win =
      (if 0 < m.winning_trades then
        (if 0 < m.gross_pnl then m.gross_pnl / m.winning_trades else 0)
       else m.average_win) := rfl

/-! Accumulator characterization of `accumulate`. -/

theorem accumulate_total (m : MMFSStrategyMetrics) (t : MMFSTradeResult) :
    (accumulate m t).total_trades = m.total_trades + 1 := by
  simp only [accumulate, update_minute_total, update_exit_reason_total, update_setups_total]
  split_ifs <;> rfl

theorem accumulate_winning (m : MMFSStrategyMetrics) (t : MMFSTradeResult) :
    (accumulate m t).winning_trades =
      (if is_winner t then m.winning_trades + 1 else m.winning_trades) := by
  simp only [accumulate, update_minute_winning, update_exit_reason_winning,
    update_setups_winning]
  split_ifs <;> rfl

theorem accumulate_losing (m : MMFSStrategyMetrics) (t : MMFSTradeResult) :
    (accumulate m t).losing_trades =
      (if is_winner t then m.losing_trades
       else if is_loser t then m.losing_trades + 1 else m.losing_trades) := by
  simp only [accumulate, update_minute_losing, update_exit_reason_losing,
    update_setups_losing]
  split_ifs <;> rfl

theorem accumulate_gross (m : MMFSStrategyMetrics) (t : MMFSTradeResult) :
    (accumulate m t).gross_pnl = m.gross_pnl + t.gross_pnl := by
  simp only [accumulate, update_minute_gross, update_exit_reason_gross]
  have h : ∀ m' : MMFSStrategyMetrics, (update_setups m' t).gross_pnl = m'.gross_pnl :=
    fun m' => update_setups_gross m' t
  split_ifs <;> simp [h]

theorem accumulate_largest_loss (m : MMFSStrategyMetrics) (t : MMFSTradeResult) :
    (accumulate m t).largest_loss =
      (if is_winner t then m.largest_loss
       else if is_loser t then min m.largest_loss t.net_pnl else m.largest_loss) := by
  simp only [accumulate, update_minute_largest_loss, update_exit_reason_largest_loss,
    update_setups_largest_loss]
  split_ifs <;> rfl

theorem accumulate_average_win (m : MMFSStrategyMetrics) (t : MMFSTradeResult) :
    (accumulate m t).average_win = m.average_win := by
  simp only [accumulate, update_minute_average_win, update_exit_reason_average_win,
    update_setups_average_win]
  split_ifs <;> rfl

theorem accumulate_sumExits (m : MMFSStrategyMetrics) (t : MMFSTradeResult) :
    sumExits (accumulate m t) =
      sumExits m + (if isCountedExit t.exit_reason then 1 else 0) := by
  simp only [accumulate, update_minute_sumExits, update_exit_reason_sumExits]
  have hrec : ∀ (m' : MMFSStrategyMetrics) (g n : ℚ),
      sumExits { m' with gross_pnl := g, net_pnl := n } = sumExits m' := fun _ _ _ => rfl
  rw [hrec, update_setups_sumExits]
  split_ifs <;> rfl

/-- The modelled costs are strictly positive (at least the two ₹20 brokerage
legs). -/
theorem trade_costs_pos (exit_price : ℚ) (quantity : ℤ) :
    0 < trade_costs exit_price quantity := by
  unfold trade_costs
  positivity

/-- A constructed trade result satisfies
`gross_pnl = net_pnl + trade_costs`. -/
theorem mkTradeResult_cost (t : TradeSpec) :
    (mkTradeResult t).gross_pnl =
      (mkTradeResult t).net_pnl + trade_costs (mkTradeResult t).exit_price
        (mkTradeResult t).quantity := by
  simp [mkTradeResult]

/-- For any metrics state satisfying the accumulator invariant, the profit
factor recomputed by `_recalculate_metrics` is `none` (infinity) iff there
are winners and no losers, and `some 0` iff there are no winners or the
gross P&L is non-positive. -/
theorem recalculate_spec (m : MMFSStrategyMetrics)
    (hwt : m.winning_trades ≤ m.total_trades)
    (hg : m.losing_trades = 0 → 0 ≤ m.gross_pnl ∧ (0 < m.total_trades → 0 < m.gross_pnl))
    (hll : 0 < m.losing_trades → m.largest_loss < 0) :
    ProfitFactorSpec (recalculate m) := by
  unfold ProfitFactorSpec
  rw [recalculate_winning, recalculate_losing, recalculate_gross]
  have hpf : (recalculate m).profit_factor =
      (if 0 < (if 0 < m.losing_trades then
          (m.losing_trades : ℚ) *
            |if 0 < m.losing_trades then
                (if 0 < |m.largest_loss| * (m.losing_trades : ℚ) then
                  -(|m.largest_loss| * (m.losing_trades : ℚ)) / (m.losing_trades : ℚ)
                 else 0)
              else m.average_loss|
        else 0) then
        some ((if 0 < m.winning_trades then
            (m.winning_trades : ℚ) *
              |if 0 < m.winning_trades then
                  (if 0 < m.gross_pnl then m.gross_pnl / (m.winning_trades : ℚ) else 0)
                else m.average_win|
          else 0) /
          (if 0 < m.losing_trades then
            (m.losing_trades : ℚ) *
              |if 0 < m.losing_trades then
                  (if 0 < |m.largest_loss| * (m.losing_trades : ℚ) then
                    -(|m.largest_loss| * (m.losing_trades : ℚ)) / (m.losing_trades : ℚ)
                   else 0)
                else m.average_loss|
          else 0))
       else if 0 < (if 0 < m.winning_trades then
          (m.winning_trades : ℚ) *
            |if 0 < m.winning_trades then
                (if 0 < m.gross_pnl then m.gross_pnl / (m.winning_trades : ℚ) else 0)
              else m.average_win|
        else 0) then none
       else some 0) := rfl
  rw [hpf]
  by_cases hL : 0 < m.losing_trades
  · -- losers exist: the denominator is positive, so the factor is finite
    have hll' : m.largest_loss < 0 := hll hL
    have habs : 0 < |m.largest_loss| := abs_pos.mpr (ne_of_lt hll')
    have hLQ : (0 : ℚ) < m.losing_trades := by exact_mod_cast hL
    have htl : 0 < |m.largest_loss| * (m.losing_trades : ℚ) := mul_pos habs hLQ
    have hal : |(-(|m.largest_loss| * (m.losing_trades : ℚ)) / (m.losing_trades : ℚ))| =
        |m.largest_loss| := by
      rw [neg_div, abs_neg, abs_div]
      rw [abs_of_pos htl, abs_of_pos hLQ]
      exact mul_div_cancel_right₀ _ (ne_of_gt hLQ)
    have htlq : 0 < (m.losing_trades : ℚ) * |m.largest_loss| := mul_pos hLQ habs
    simp only [if_pos hL, if_pos htl, hal]
    rw [if_pos htlq]
    constructor
    · exact ⟨fun hc => absurd hc (by simp), fun hc => absurd hc.2 (by omega)⟩
    · rw [Option.some_inj, div_eq_zero_iff]
      constructor
      · rintro (htw | htl0)
        · by_cases hW : 0 < m.winning_trades
          · rw [if_pos hW] at htw
            have hWQ : (0 : ℚ) < m.winning_trades := by exact_mod_cast hW
            rcases mul_eq_zero.mp htw with hc | hc
            · exact absurd hc (ne_of_gt hWQ)
            · by_cases hG : 0 < m.gross_pnl
              · rw [if_pos hW, if_pos hG] at hc
                exact absurd (abs_eq_zero.mp hc) (ne_of_gt (div_pos hG hWQ))
              · exact Or.inr (not_lt.mp hG)
          · exact Or.inl (Nat.eq_zero_of_not_pos hW)
        · exact absurd htl0 (ne_of_gt htlq)
      · intro h
        left
        by_cases hW : 0 < m.winning_trades
        · rcases h with hW0 | hG0
          · exact absurd hW0 (by omega)
          · rw [if_pos hW, if_pos hW, if_neg (not_lt.mpr hG0), abs_zero, mul_zero]
        · rw [if_neg hW]
  · -- no losers: the denominator is zero
    have hL0 : m.losing_trades = 0 := Nat.eq_zero_of_not_pos hL
    have hg' := hg hL0
    simp only [if_neg hL]
    rw [if_neg (lt_irrefl (0 : ℚ))]
    by_cases hW : 0 < m.winning_trades
    · have htot : 0 < m.total_trades := lt_of_lt_of_le hW hwt
      have hGpos : 0 < m.gross_pnl := hg'.2 htot
      have hWQ : (0 : ℚ) < m.winning_trades := by exact_mod_cast hW
      have haw : 0 < m.gross_pnl / (m.winning_trades : ℚ) := div_pos hGpos hWQ
      have htw : 0 < (m.winning_trades : ℚ) *
          |if 0 < m.winning_trades then
              (if 0 < m.gross_pnl then m.gross_pnl / (m.winning_trades : ℚ) else 0)
            else m.average_win| := by
        rw [if_pos hW, if_pos hGpos, abs_of_pos haw]
        exact mul_pos hWQ haw
      rw [if_pos hW, if_pos htw]
      constructor
      · simp [hW, hL0]
      · refine ⟨fun hc => Option.noConfusion hc, fun hc => ?_⟩
        rcases hc with h0 | h0
        · exact absurd h0 (by omega)
        · exact absurd h0 (not_le.mpr hGpos)
    · rw [if_neg hW, if_neg (lt_irrefl (0 : ℚ))]
      have hW0 : m.winning_trades = 0 := Nat.eq_zero_of_not_pos hW
      constructor
      · exact ⟨fun hc => absurd hc (by simp), fun hc => absurd hc.1 (by omega)⟩
      · simp [hW0]

theorem is_winner_iff (t : MMFSTradeResult) : is_winner t = true ↔ 0 < t.net_pnl := by
  simp [is_winner]

theorem is_loser_iff (t : MMFSTradeResult) : is_loser t = true ↔ t.net_pnl < 0 := by
  simp [is_loser]

/-- One `update_from_trade` step on a trade built by `__post_init__`
preserves the accumulator invariant and re-establishes the profit-factor
characterization. -/
theorem update_from_trade_inv (m : MMFSStrategyMetrics) (t : MMFSTradeResult)
    (hcost : t.gross_pnl = t.net_pnl + trade_costs t.exit_price t.quantity)
    (hInv : MetricsInv m) :
    MetricsInv (update_from_trade m t) ∧ ProfitFactorSpec (update_from_trade m t) := by
  obtain ⟨hwt, hg, hll, haw0⟩ := hInv
  have hcpos := trade_costs_pos t.exit_price t.quantity
  have hat := accumulate_total m t
  have haw := accumulate_winning m t
  have halo := accumulate_losing m t
  have hag := accumulate_gross m t
  have hall := accumulate_largest_loss m t
  have haaw := accumulate_average_win m t
  have hwt' : (accumulate m t).winning_trades ≤ (accumulate m t).total_trades := by
    rw [hat, haw]
    split_ifs <;> omega
  have hg' : (accumulate m t).losing_trades = 0 →
      0 ≤ (accumulate m t).gross_pnl ∧
      (0 < (accumulate m t).total_trades → 0 < (accumulate m t).gross_pnl) := by
    intro h0
    rw [halo] at h0
    rw [hag, hat]
    by_cases hw : is_winner t = true
    · rw [if_pos hw] at h0
      have hgm := hg h0
      have htg : 0 < t.gross_pnl := by
        have hn : 0 < t.net_pnl := (is_winner_iff t).mp hw
        rw [hcost]
        linarith
      exact ⟨by linarith [hgm.1], fun _ => by linarith [hgm.1]⟩
    · by_cases hl : is_loser t = true
      · rw [if_neg hw, if_pos hl] at h0
        exact absurd h0 (by omega)
      · rw [if_neg hw, if_neg hl] at h0
        have hn1 : ¬ 0 < t.net_pnl := fun hc => hw ((is_winner_iff t).mpr hc)
        have hn2 : ¬ t.net_pnl < 0 := fun hc => hl ((is_loser_iff t).mpr hc)
        have hnet0 : t.net_pnl = 0 := le_antisymm (not_lt.mp hn1) (not_lt.mp hn2)
        have htg : 0 < t.gross_pnl := by
          rw [hcost, hnet0]
          simpa using hcpos
        have hgm := hg h0
        exact ⟨by linarith [hgm.1], fun _ => by linarith [hgm.1]⟩
  have hll' : 0 < (accumulate m t).losing_trades → (accumulate m t).largest_loss < 0 := by
    intro hpos
    rw [halo] at hpos
    rw [hall]
    by_cases hw : is_winner t = true
    · rw [if_pos hw] at hpos ⊢
      exact hll hpos
    · by_cases hl : is_loser t = true
      · rw [if_neg hw, if_pos hl]
        exact lt_of_le_of_lt (min_le_right _ _) ((is_loser_iff t).mp hl)
      · rw [if_neg hw, if_neg hl] at hpos ⊢
        exact hll hpos
  have hps := recalculate_spec (accumulate m t) hwt' hg' hll'
  refine ⟨⟨?_, ?_, ?_, ?_⟩, hps⟩
  · rw [update_from_trade, recalculate_winning, recalculate_total]
    exact hwt'
  · rw [update_from_trade, recalculate_losing, recalculate_gross, recalculate_total]
    exact hg'
  · rw [update_from_trade, recalculate_losing, recalculate_largest_loss]
    exact hll'
  · intro h0
    rw [update_from_trade, recalculate_winning] at h0
    rw [update_from_trade, recalculate_average_win, if_neg (by omega), haaw]
    apply haw0
    rw [haw] at h0
    by_cases hw : is_winner t = true
    · rw [if_pos hw] at h0
      exact absurd h0 (by omega)
    · rw [if_neg hw] at h0
      exact h0

/-- Folding constructed trades preserves the invariant and the profit-factor
characterization. -/
theorem foldTrades_aux (ts : List TradeSpec) : ∀ m : MMFSStrategyMetrics,
    MetricsInv m ∧ ProfitFactorSpec m →
    MetricsInv (ts.foldl (fun m t => update_from_trade m (mkTradeResult t)) m) ∧
    ProfitFactorSpec (ts.foldl (fun m t => update_from_trade m (mkTradeResult t)) m) := by
  induction ts with
  | nil => exact fun m h => h
  | cons x xs ih =>
    intro m h
    simp only [List.foldl_cons]
    exact ih _ (update_from_trade_inv m (mkTradeResult x) (mkTradeResult_cost x) h.1)

theorem initMetrics_inv : MetricsInv initMetrics ∧ ProfitFactorSpec initMetrics := by
  have h1 : initMetrics.total_trades = 0 := rfl
  have h2 : initMetrics.losing_trades = 0 := rfl
  have h3 : initMetrics.winning_trades = 0 := rfl
  have h4 : initMetrics.gross_pnl = 0 := rfl
  have h5 : initMetrics.average_win = 0 := rfl
  have h6 : initMetrics.profit_factor = some 0 := rfl
  refine ⟨⟨by rw [h3, h1], fun _ => ⟨by rw [h4], fun hc => absurd hc (by rw [h1]; omega)⟩,
    fun hc => absurd hc (by rw [h2]; omega), fun _ => h5⟩, ?_, ?_⟩
  · constructor
    · intro hc
      rw [h6] at hc
      exact absurd hc (by simp)
    · intro hc
      rw [h3] at hc
      exact absurd hc.1 (by omega)
  · rw [h6, h3]
    simp

/-- Claim C6 (corrected): after folding any sequence of trade results, the
stored profit factor is `∞` (modelled `none`) exactly when there is at least
one winning trade and no losing trades, and `0` exactly when there are no
winning trades or the accumulated gross P&L is non-positive — not only "when
there are neither winning nor losing trades": the `average_win`
approximation uses the total gross P&L, so the factor collapses to `0` as
soon as that total is non-positive. -/
theorem profit_factor_characterization (ts : List TradeSpec) :
    ((foldTrades ts).profit_factor = none ↔
      0 < (foldTrades ts).winning_trades ∧ (foldTrades ts).losing_trades = 0) ∧
    ((foldTrades ts).profit_factor = some 0 ↔
      (foldTrades ts).winning_trades = 0 ∨ (foldTrades ts).gross_pnl ≤ 0) :=
  (foldTrades_aux ts initMetrics initMetrics_inv).2

/-- Counterexample to C6 as stated: a single losing trade (LONG 100 → 80 on
10 units) leaves `profit_factor = 0` even though a losing trade exists, so
"0 exactly when there are neither winning nor losing trades" fails. -/
theorem profit_factor_zero_with_loser :
    0 < (foldTrades [loserSpec]).losing_trades ∧
    (foldTrades [loserSpec]).profit_factor = some 0 := by
  have hgl : (mkTradeResult loserSpec).gross_pnl = -200 := by
    norm_num [mkTradeResult, loserSpec]
  have hnet : (mkTradeResult loserSpec).net_pnl < 0 := by
    have h1 : (mkTradeResult loserSpec).net_pnl =
        (mkTradeResult loserSpec).gross_pnl -
          trade_costs (mkTradeResult loserSpec).exit_price
            (mkTradeResult loserSpec).quantity := rfl
    have h2 := trade_costs_pos (mkTradeResult loserSpec).exit_price
      (mkTradeResult loserSpec).quantity
    rw [h1, hgl]
    linarith
  have hw : ¬ is_winner (mkTradeResult loserSpec) = true := by
    simp only [is_winner_iff, not_lt]
    exact le_of_lt hnet
  have hl : is_loser (mkTradeResult loserSpec) = true := (is_loser_iff _).mpr hnet
  have hfold : foldTrades [loserSpec] =
      update_from_trade initMetrics (mkTradeResult loserSpec) := rfl
  constructor
  · rw [hfold, update_from_trade, recalculate_losing, accumulate_losing,
      if_neg hw, if_pos hl]
    omega
  · have hps := (update_from_trade_inv initMetrics (mkTradeResult loserSpec)
      (mkTradeResult_cost loserSpec) initMetrics_inv.1).2
    rw [hfold]
    apply hps.2.mpr
    right
    rw [update_from_trade, recalculate_gross, accumulate_gross, hgl]
    norm_num [initMetrics]

/-- Folding trades adds one to `total_trades` per trade, and adds one to the
exit-reason histogram only for the four counted reason strings. -/
theorem fold_exits_aux (ts : List TradeSpec) : ∀ m : MMFSStrategyMetrics,
    sumExits (ts.foldl (fun m t => update_from_trade m (mkTradeResult t)) m) =
      sumExits m + (ts.filter (fun t => isCountedExit t.exit_reason)).length ∧
    (ts.foldl (fun m t => update_from_trade m (mkTradeResult t)) m).total_trades =
      m.total_trades + ts.length := by
  induction ts with
  | nil => intro m; simp
  | cons x xs ih =>
    intro m
    have hreason : (mkTradeResult x).exit_reason = x.exit_reason := rfl
    have hstep_sum : sumExits (update_from_trade m (mkTradeResult x)) =
        sumExits m + (if isCountedExit x.exit_reason then 1 else 0) := by
      rw [update_from_trade, recalculate_sumExits, accumulate_sumExits, hreason]
    have hstep_tot : (update_from_trade m (mkTradeResult x)).total_trades =
        m.total_trades + 1 := by
      rw [update_from_trade, recalculate_total, accumulate_total]
    simp only [List.foldl_cons, List.filter_cons]
    constructor
    · rw [(ih _).1, hstep_sum]
      by_cases hc : isCountedExit x.exit_reason
      · simp only [hc, if_true, List.length_cons]
        omega
      · simp only [Bool.not_eq_true] at hc
        simp only [hc, if_false, Bool.false_eq_true]
        omega
    · rw [(ih _).2, hstep_tot, List.length_cons]
      omega

/-- Claim C10: folding a `STRATEGY_STOP` trade increments `total_trades` but
none of the four exit-reason counters; over any fold sequence the counters
sum to the number of trades whose reason is TARGET, STOP_LOSS, TIME_BASED or
BREAKEVEN, which is strictly less than `total_trades` as soon as a
STRATEGY_STOP trade is present. -/
theorem strategy_stop_uncounted :
    (∀ ts : List TradeSpec,
      sumExits (foldTrades ts) =
        (ts.filter (fun t => isCountedExit t.exit_reason)).length ∧
      (foldTrades ts).total_trades = ts.length) ∧
    sumExits (foldTrades [strategyStopSpec]) <
      (foldTrades [strategyStopSpec]).total_trades := by
  have hmain : ∀ ts : List TradeSpec,
      sumExits (foldTrades ts) =
        (ts.filter (fun t => isCountedExit t.exit_reason)).length ∧
      (foldTrades ts).total_trades = ts.length := by
    intro ts
    have h := fold_exits_aux ts initMetrics
    have hs0 : sumExits initMetrics = 0 := rfl
    have ht0 : initMetrics.total_trades = 0 := rfl
    rw [hs0, ht0] at h
    rw [foldTrades]
    exact ⟨by rw [h.1]; omega, by rw [h.2]; omega⟩
  refine ⟨hmain, ?_⟩
  have h := hmain [strategyStopSpec]
  rw [h.1, h.2]
  have hns : isCountedExit strategyStopSpec.exit_reason = false := by decide
  simp [List.filter, hns]

end MMFS
